import Mathlib

/-
Verification of the STAC → ODC canonicalization pipeline
(source file: libs/index/odc/index/stac.py).

Shallow embedding conventions:
* Python dicts whose key set is fixed by the code become Lean structures;
  `properties` keys that the code may find absent become `Option` fields,
  a `None`-valued lookup raising `KeyError` is modelled as
  `TErr.missingField <key>`.
* The `grids[default_grid]` lookup failure on line 70 of the source is the
  distinct error `TErr.unknownDefaultGrid` (the spec's taxonomy name for
  that `KeyError` site); `properties['instruments'][0]` on an empty list
  is `TErr.indexError`.
* `assets` and the intermediate `bands` / `grids` dicts are insertion-ordered
  association lists, mirroring Python dict semantics (append on new key).
* Numeric metadata (transform entries, epsg codes, cloud cover, gsd) is
  embedded as `Int`; the f-string `:g` formatting of a pixel spacing is
  `gfmt`, which agrees with Python for the integer-valued spacings the
  pipeline sees.
* The two external collaborators are parameters: `odc_uuid` (deterministic
  identifier generator, §6 of the spec) is an arbitrary function argument,
  and the geometry library (`datacube.utils.geometry.Geometry`) is a
  `GeoLib` record of abstract functions on opaque geometry blobs.
-/

/-- Media type accepted on line 45 of the source: only cloud-optimized
GeoTIFF assets participate as bands. -/
def COG_MEDIA_TYPE : String :=
  "image/tiff; application=geotiff; profile=cloud-optimized"

/-- Line 8-10 of the source: the known-constellation table. -/
def KNOWN_CONSTELLATIONS : List String := ["sentinel-2"]

/-- Python `str.lower` restricted to ASCII letters (all strings the
pipeline lowercases are ASCII platform names). -/
def lowerChar (c : Char) : Char :=
  if 'A' ≤ c ∧ c ≤ 'Z' then Char.ofNat (c.toNat + 32) else c

/-- Python `s.lower()`. -/
def pyLower (s : String) : String := ⟨s.data.map lowerChar⟩

/-- Python `s[-2:]`: the last two characters (the whole string when
shorter than two characters). -/
def pyLastTwo (s : String) : String := ⟨s.data.drop (s.data.length - 2)⟩

/-- Python `pathlib.Path(p).name` for the POSIX paths / URLs the pipeline
sees: the last nonempty `/`-separated component. -/
def pathName (s : String) : String :=
  (((s.splitOn "/").filter (fun p => p ≠ "")).getLast?).getD ""

/-- Python `str.replace` on character lists: every occurrence of `pat`
(nonempty) is replaced by `rep`, scanning left to right without overlap.
(For an empty `pat` this is the identity, unlike Python; the pipeline only
ever replaces the fixed nonempty pattern "000+00:00".) -/
def replaceListAux (pat rep : List Char) : Nat → List Char → List Char
  | 0, l => l
  | _ + 1, [] => []
  | fuel + 1, c :: rest =>
    if pat ≠ [] ∧ pat.isPrefixOf (c :: rest) then
      rep ++ replaceListAux pat rep fuel (rest.drop (pat.length - 1))
    else
      c :: replaceListAux pat rep fuel rest

/-- Python `str.replace` on character lists, driven by a fuel argument of
the list's length (each step consumes at least one element, so the fuel
never runs out). -/
def replaceList (pat rep l : List Char) : List Char := replaceListAux pat rep l.length l

/-- Python `s.replace(pat, rep)`. -/
def pyReplace (s pat rep : String) : String := ⟨replaceList pat.data rep.data s.data⟩

/-- Substring occurrence test (used only in theorem statements). -/
def containsSub (pat : List Char) : List Char → Bool
  | [] => pat.isPrefixOf []
  | c :: rest => pat.isPrefixOf (c :: rest) || containsSub pat rest

/-- Python truthiness of an optional string (`if region_code:` on
line 130 of the source): `None` and the empty string are falsy. -/
def truthy_str : Option String → Bool
  | none => false
  | some s => !(s == "")

/-- The f-string `:g` formatting of a pixel spacing (line 49 of the
source), for the integer-valued spacings the pipeline sees. -/
def gfmt (x : Int) : String := toString x

/-- A 6-element `proj:transform` affine transform (input schema §6:
six numbers). -/
structure Affine where
  t0 : Int
  t1 : Int
  t2 : Int
  t3 : Int
  t4 : Int
  t5 : Int
deriving DecidableEq, Repr

/-- An asset descriptor (input schema §6: `type`, `href`,
`proj:transform`, `proj:shape`). -/
structure Asset where
  type : String
  href : String
  transform : Affine
  shape : List Int
deriving DecidableEq, Repr

/-- The `properties` mapping of an input item, restricted to the keys the
source reads; `none` models an absent key. -/
structure Props where
  platform : Option String
  constellation : Option String
  datetime : Option String
  eo_cloud_cover : Option Int
  gsd : Option Int
  instruments : Option (List String)
  proj_epsg : Option Int
  sentinel_product_id : Option String
  sentinel_latitude_band : Option String
  sentinel_grid_square : Option String
deriving DecidableEq, Repr

/-- A raw STAC item (input document, §6). The footprint geometry is an
opaque GeoJSON blob. -/
structure Item where
  id : String
  properties : Props
  assets : List (String × Asset)
  geometry : String
deriving DecidableEq, Repr

/-- The abstract geometry library (external collaborator,
`datacube.utils.geometry`): construction, reprojection (`to_crs` with
`resolution=math.inf` fixed), topological validity, and GeoJSON export.
The `json` blob of a valid geometry is a nonempty mapping, hence truthy in
Python; `if geometry:` on line 133 of the source is therefore the
`Option.isSome` test. -/
structure GeoLib where
  mkGeometry : String → String → String
  to_crs : String → String → String
  is_valid : String → Bool
  json : String → String

/-- Error taxonomy (§7 of the spec, mapped onto the `KeyError` /
`IndexError` sites of the source). -/
inductive TErr where
  | missingField (key : String)
  | unknownDefaultGrid (key : String)
  | indexError (what : String)
deriving DecidableEq, Repr

/-- Classifier for the `MissingFieldError` branch of the taxonomy. -/
def TErr.isMissingField : TErr → Bool
  | .missingField _ => true
  | _ => false

/-- A grid descriptor (line 52-55 of the source). -/
structure GridSpec where
  shape : List Int
  transform : Affine
deriving DecidableEq, Repr

/-- A per-band measurement entry (lines 61-66 of the source): path plus an
optional grid override. -/
structure BandInfo where
  path : String
  grid : Option String
deriving DecidableEq, Repr

/-- Normalized output properties (lines 117-125 and 130-131 of the
source); `odc_region_code = none` models an absent key. -/
structure OutProps where
  datetime : String
  odc_processing_datetime : String
  eo_cloud_cover : Int
  eo_gsd : Int
  eo_instrument : String
  eo_platform : String
  odc_file_format : String
  odc_region_code : Option String
deriving DecidableEq, Repr

/-- The output ODC document (lines 108-134 of the source);
`geometry = none` models an absent key, `lineage` is the constant empty
mapping and is omitted. -/
structure StacODC where
  schema : String
  id : String
  crs : String
  grids : List (String × GridSpec)
  product_name : String
  label : String
  properties : OutProps
  measurements : List (String × BandInfo)
  geometry : Option String
deriving DecidableEq, Repr

/-- Ordered-dict lookup. -/
def dictGet {β : Type} : List (String × β) → String → Option β
  | [], _ => none
  | (k, v) :: rest, key => if k = key then some v else dictGet rest key

/-- Lines 13-33 of the source (`_stac_product_lookup`): resolve
`(product_label, product_name, region_code)`, reading `platform` and
`constellation` unconditionally and the sentinel-specific fields inside
the known-constellation branch. -/
def _stac_product_lookup (item : Item) : Except TErr (String × String × Option String) :=
  let properties := item.properties
  let product_label := item.id
  match properties.platform with
  | none => .error (.missingField "platform")
  | some product_name =>
    let region_code : Option String := none
    match properties.constellation with
    | none => .error (.missingField "constellation")
    | some constellation =>
      if constellation ∈ KNOWN_CONSTELLATIONS then
        if constellation = "sentinel-2" then
          match properties.sentinel_product_id with
          | none => .error (.missingField "sentinel:product_id")
          | some s2_label =>
            match properties.proj_epsg with
            | none => .error (.missingField "proj:epsg")
            | some epsg =>
              match properties.sentinel_latitude_band with
              | none => .error (.missingField "sentinel:latitude_band")
              | some lat_band =>
                match properties.sentinel_grid_square with
                | none => .error (.missingField "sentinel:grid_square")
                | some grid_square =>
                  .ok (s2_label, "s2_l2a",
                       some (pyLastTwo (toString epsg) ++ lat_band ++ grid_square))
        else
          .ok (product_label, product_name, region_code)
      else
        .ok (product_label, product_name, region_code)

/-- Line 49 of the source: the canonical grid key derived from the first
transform element (the pixel spacing). -/
def gridKeyOf (asset : Asset) : String := "g" ++ gfmt asset.transform.t0 ++ "m"

/-- Lines 57-66 of the source: the per-band entry built for one asset. -/
def mkBandInfo (default_grid : String) (relative : Bool) (asset : Asset) : BandInfo :=
  let path := if relative then pathName asset.href else asset.href
  { path := path,
    grid := if gridKeyOf asset ≠ default_grid then some (gridKeyOf asset) else none }

/-- Lines 43-68 of the source: the `for asset_name, asset in assets.items()`
loop, accumulating `bands` and `grids` in insertion order. -/
def _bands_loop (default_grid : String) (relative : Bool) :
    List (String × Asset) → List (String × BandInfo) → List (String × GridSpec) →
    List (String × BandInfo) × List (String × GridSpec)
  | [], bands, grids => (bands, grids)
  | (asset_name, asset) :: rest, bands, grids =>
    if asset.type ≠ COG_MEDIA_TYPE then
      _bands_loop default_grid relative rest bands grids
    else
      let grid := gridKeyOf asset
      let grids2 :=
        if (dictGet grids grid).isSome then grids
        else grids ++ [(grid, { shape := asset.shape, transform := asset.transform })]
      _bands_loop default_grid relative rest
        (bands ++ [(asset_name, mkBandInfo default_grid relative asset)]) grids2

/-- Lines 36-73 of the source (`_get_stac_bands`): run the asset loop, then
rename the configured default grid's entry to the fixed key `default`
(append, as Python dict insertion does) and delete the original key.
The lookup `grids[default_grid]` on line 70 raises when no asset mapped to
the default key. -/
def _get_stac_bands (item : Item) (default_grid : String) (relative : Bool) :
    Except TErr (List (String × BandInfo) × List (String × GridSpec)) :=
  match _bands_loop default_grid relative item.assets [] [] with
  | (bands, grids) =>
    match dictGet grids default_grid with
    | none => .error (.unknownDefaultGrid default_grid)
    | some default_spec =>
      .ok (bands, grids.filter (fun kv => kv.1 ≠ default_grid) ++ [("default", default_spec)])

/-- Lines 76-86 of the source (`_geographic_to_projected`): reproject from
WGS84 to the target CRS and keep the result only when topologically
valid. -/
def _geographic_to_projected (L : GeoLib) (geometry : String) (crs : String) : Option String :=
  let geom := L.mkGeometry geometry "EPSG:4326"
  let geom2 := L.to_crs geom crs
  if L.is_valid geom2 then some (L.json geom2) else none

/-- Lines 92-136 of the source (`stac_transform`): the full pipeline, with
the external identifier generator `odc_uuid` and geometry library `L` as
parameters. Field reads follow the evaluation order of the source. -/
def stac_transform (L : GeoLib) (odc_uuid : String → String → List String → String)
    (input_stac : Item) (relative : Bool) : Except TErr StacODC :=
  match _stac_product_lookup input_stac with
  | .error e => .error e
  | .ok (product_label, product_name, region_code) =>
    let deterministic_uuid := odc_uuid "sentinel-2_stac_process" "1.0.0" [product_label]
    match _get_stac_bands input_stac "g10m" relative with
    | .error e => .error e
    | .ok (bands, grids) =>
      let properties := input_stac.properties
      match properties.proj_epsg with
      | none => .error (.missingField "proj:epsg")
      | some epsg =>
        let native_crs := "epsg:" ++ toString epsg
        let geometry := _geographic_to_projected L input_stac.geometry native_crs
        match properties.datetime with
        | none => .error (.missingField "datetime")
        | some dt =>
          match properties.eo_cloud_cover with
          | none => .error (.missingField "eo:cloud_cover")
          | some cloud_cover =>
            match properties.gsd with
            | none => .error (.missingField "gsd")
            | some gsd0 =>
              match properties.instruments with
              | none => .error (.missingField "instruments")
              | some instruments =>
                match instruments with
                | [] => .error (.indexError "instruments")
                | instrument0 :: _ =>
                  match properties.platform with
                  | none => .error (.missingField "platform")
                  | some platform =>
                    .ok { schema := "https://schemas.opendatacube.org/dataset",
                          id := deterministic_uuid,
                          crs := native_crs,
                          grids := grids,
                          product_name := pyLower product_name,
                          label := product_label,
                          properties := {
                            datetime := pyReplace dt "000+00:00" "Z",
                            odc_processing_datetime := pyReplace dt "000+00:00" "Z",
                            eo_cloud_cover := cloud_cover,
                            eo_gsd := gsd0,
                            eo_instrument := instrument0,
                            eo_platform := platform,
                            odc_file_format := "GeoTIFF",
                            odc_region_code :=
                              if truthy_str region_code then region_code else none },
                          measurements := bands,
                          geometry := geometry }

/-- Lines 88-89 of the source. -/
def stac_transform_absolute (L : GeoLib) (odc_uuid : String → String → List String → String)
    (input_stac : Item) : Except TErr StacODC :=
  stac_transform L odc_uuid input_stac false

/-
Helper lemmas about the embedding.
-/

theorem dictGet_append {β : Type} (l1 l2 : List (String × β)) (k : String) :
    dictGet (l1 ++ l2) k =
      match dictGet l1 k with
      | some v => some v
      | none => dictGet l2 k := by
  induction l1 with
  | nil => simp [dictGet]
  | cons kv rest ih =>
    obtain ⟨k1, v1⟩ := kv
    by_cases h : k1 = k
    · simp [dictGet, h]
    · simp [dictGet, h, ih]

theorem dictGet_filter_self {β : Type} (l : List (String × β)) (dk : String) :
    dictGet (l.filter (fun kv => kv.1 ≠ dk)) dk = none := by
  induction l with
  | nil => simp [dictGet]
  | cons kv rest ih =>
    obtain ⟨k1, v1⟩ := kv
    by_cases h : k1 = dk
    · simpa [List.filter_cons, h] using ih
    · simpa [List.filter_cons, h, dictGet] using ih

theorem dictGet_filter_ne {β : Type} (l : List (String × β)) (dk k : String) (hk : k ≠ dk) :
    dictGet (l.filter (fun kv => kv.1 ≠ dk)) k = dictGet l k := by
  induction l with
  | nil => simp [dictGet]
  | cons kv rest ih =>
    obtain ⟨k1, v1⟩ := kv
    by_cases h : k1 = dk
    · subst h
      have hne : ¬(k1 = k) := fun hh => hk hh.symm
      simpa [List.filter_cons, dictGet, hne] using ih
    · by_cases h2 : k1 = k
      · simp [List.filter_cons, h, dictGet, h2, hk]
      · simpa [List.filter_cons, h, dictGet, h2] using ih

theorem gkey_ne_default (s : String) : ("g" ++ s ++ "m") ≠ "default" := by
  intro h
  have h2 : ("g" ++ s ++ "m").data = "default".data := congrArg String.data h
  rw [String.data_append, String.data_append] at h2
  have hg : "g".data = ['g'] := rfl
  have hd : "default".data = ['d', 'e', 'f', 'a', 'u', 'l', 't'] := rfl
  rw [hg, hd] at h2
  simp at h2

theorem gridKeyOf_ne_default (a : Asset) : gridKeyOf a ≠ "default" :=
  gkey_ne_default (gfmt a.transform.t0)

theorem replaceListAux_of_not_contains (pat rep : List Char) :
    ∀ fuel l, containsSub pat l = false → replaceListAux pat rep fuel l = l := by
  intro fuel
  induction fuel with
  | zero => intro l _; rfl
  | succ n ih =>
    intro l h
    cases l with
    | nil => rfl
    | cons c rest =>
      rw [containsSub, Bool.or_eq_false_iff] at h
      obtain ⟨h1, h2⟩ := h
      rw [replaceListAux]
      rw [if_neg]
      · rw [ih rest h2]
      · intro hx
        rw [hx.2] at h1
        cases h1

theorem replaceList_of_not_contains (pat rep : List Char) :
    ∀ l, containsSub pat l = false → replaceList pat rep l = l :=
  fun l h => replaceListAux_of_not_contains pat rep l.length l h

theorem loop_bands_mono (dk : String) (rel : Bool) (assets : List (String × Asset)) :
    ∀ bands grids nb, nb ∈ bands → nb ∈ (_bands_loop dk rel assets bands grids).1 := by
  induction assets with
  | nil => intro bands grids nb h; simpa [_bands_loop] using h
  | cons na rest ih =>
    intro bands grids nb h
    obtain ⟨n, a⟩ := na
    by_cases ht : a.type ≠ COG_MEDIA_TYPE
    · simp only [_bands_loop, if_pos ht]
      exact ih bands grids nb h
    · simp only [_bands_loop, if_neg ht]
      exact ih _ _ nb (List.mem_append_left _ h)

theorem loop_grids_mono (dk : String) (rel : Bool) (assets : List (String × Asset)) :
    ∀ bands grids k, (dictGet grids k).isSome →
      (dictGet (_bands_loop dk rel assets bands grids).2 k).isSome := by
  induction assets with
  | nil => intro bands grids k h; simpa [_bands_loop] using h
  | cons na rest ih =>
    intro bands grids k h
    obtain ⟨n, a⟩ := na
    by_cases ht : a.type ≠ COG_MEDIA_TYPE
    · simp only [_bands_loop, if_pos ht]
      exact ih bands grids k h
    · simp only [_bands_loop, if_neg ht]
      apply ih
      by_cases hg : (dictGet grids (gridKeyOf a)).isSome
      · rw [if_pos hg]; exact h
      · rw [if_neg hg, dictGet_append]
        rcases hgk : dictGet grids k with _ | v
        · rw [hgk] at h; simp at h
        · simp

theorem loop_grids_mem (dk : String) (rel : Bool) (assets : List (String × Asset)) :
    ∀ bands grids kv, kv ∈ (_bands_loop dk rel assets bands grids).2 →
      kv ∈ grids ∨ ∃ a : Asset, kv.1 = gridKeyOf a := by
  induction assets with
  | nil => intro bands grids kv h; left; simpa [_bands_loop] using h
  | cons na rest ih =>
    intro bands grids kv h
    obtain ⟨n, a⟩ := na
    by_cases ht : a.type ≠ COG_MEDIA_TYPE
    · simp only [_bands_loop, if_pos ht] at h
      exact ih bands grids kv h
    · simp only [_bands_loop, if_neg ht] at h
      rcases ih _ _ kv h with h2 | h2
      · by_cases hg : (dictGet grids (gridKeyOf a)).isSome
        · rw [if_pos hg] at h2; exact Or.inl h2
        · rw [if_neg hg] at h2
          rcases List.mem_append.mp h2 with h3 | h3
          · exact Or.inl h3
          · right
            have : kv = (gridKeyOf a,
                ({ shape := a.shape, transform := a.transform } : GridSpec)) :=
              List.mem_singleton.mp h3
            exact ⟨a, by rw [this]⟩
      · exact Or.inr h2

theorem loop_bands_inv (dk : String) (rel : Bool) (assets : List (String × Asset)) :
    ∀ bands grids,
      (∀ nb ∈ bands, ∀ g, (nb : String × BandInfo).2.grid = some g →
        g ≠ dk ∧ (dictGet grids g).isSome) →
      ∀ nb ∈ (_bands_loop dk rel assets bands grids).1, ∀ g, nb.2.grid = some g →
        g ≠ dk ∧ (dictGet (_bands_loop dk rel assets bands grids).2 g).isSome := by
  induction assets with
  | nil =>
    intro bands grids hinv nb h g hg
    simp only [_bands_loop] at h ⊢
    exact hinv nb h g hg
  | cons na rest ih =>
    intro bands grids hinv nb h g hg
    obtain ⟨n, a⟩ := na
    by_cases ht : a.type ≠ COG_MEDIA_TYPE
    · simp only [_bands_loop, if_pos ht] at h ⊢
      exact ih bands grids hinv nb h g hg
    · simp only [_bands_loop, if_neg ht] at h ⊢
      refine ih _ _ ?_ nb h g hg
      intro nb2 hnb2 g2 hg2
      rcases List.mem_append.mp hnb2 with hold | hnew
      · obtain ⟨hne, hsome⟩ := hinv nb2 hold g2 hg2
        refine ⟨hne, ?_⟩
        by_cases hgk : (dictGet grids (gridKeyOf a)).isSome
        · rw [if_pos hgk]; exact hsome
        · rw [if_neg hgk, dictGet_append]
          rcases hx : dictGet grids g2 with _ | v
          · rw [hx] at hsome; simp at hsome
          · simp
      · have heq : nb2 = (n, mkBandInfo dk rel a) := List.mem_singleton.mp hnew
        subst heq
        unfold mkBandInfo at hg2
        dsimp only at hg2
        by_cases hne : gridKeyOf a ≠ dk
        · rw [if_pos hne] at hg2
          cases hg2
          refine ⟨hne, ?_⟩
          by_cases hgk : (dictGet grids (gridKeyOf a)).isSome
          · rw [if_pos hgk]; exact hgk
          · rw [if_neg hgk, dictGet_append]
            rcases hx : dictGet grids (gridKeyOf a) with _ | v
            · simp [dictGet]
            · rw [hx] at hgk; simp at hgk
        · rw [if_neg hne] at hg2
          cases hg2

theorem loop_bands_mem (dk : String) (rel : Bool) (assets : List (String × Asset)) :
    ∀ bands grids n a, (n, a) ∈ assets → a.type = COG_MEDIA_TYPE →
      (n, mkBandInfo dk rel a) ∈ (_bands_loop dk rel assets bands grids).1 := by
  induction assets with
  | nil => intro _ _ _ _ h _; cases h
  | cons na rest ih =>
    intro bands grids n a hmem htype
    rcases List.mem_cons.mp hmem with heq | hrest
    · obtain ⟨m, b⟩ := na
      injection heq with h1 h2
      subst h1; subst h2
      simp only [_bands_loop, if_neg (not_not_intro htype)]
      exact loop_bands_mono dk rel rest _ _ _
        (List.mem_append_right _ (List.mem_singleton.mpr rfl))
    · obtain ⟨m, b⟩ := na
      by_cases ht : b.type ≠ COG_MEDIA_TYPE
      · simp only [_bands_loop, if_pos ht]
        exact ih bands grids n a hrest htype
      · simp only [_bands_loop, if_neg ht]
        exact ih _ _ n a hrest htype

theorem loop_no_dk (dk : String) (rel : Bool) (assets : List (String × Asset)) :
    ∀ bands grids,
      (∀ na ∈ assets, (na : String × Asset).2.type = COG_MEDIA_TYPE → gridKeyOf na.2 ≠ dk) →
      dictGet grids dk = none →
      dictGet (_bands_loop dk rel assets bands grids).2 dk = none := by
  induction assets with
  | nil => intro bands grids _ h; simpa [_bands_loop] using h
  | cons na rest ih =>
    intro bands grids hyp h
    obtain ⟨n, a⟩ := na
    by_cases ht : a.type ≠ COG_MEDIA_TYPE
    · simp only [_bands_loop, if_pos ht]
      exact ih _ _ (fun x hx => hyp x (List.mem_cons_of_mem _ hx)) h
    · simp only [_bands_loop, if_neg ht]
      apply ih _ _ (fun x hx => hyp x (List.mem_cons_of_mem _ hx))
      have hk : gridKeyOf a ≠ dk := hyp (n, a) (List.mem_cons_self _ _) (not_not.mp ht)
      by_cases hgk : (dictGet grids (gridKeyOf a)).isSome
      · rw [if_pos hgk]; exact h
      · rw [if_neg hgk, dictGet_append, h]
        simp [dictGet, hk]

theorem bands_ok_elim (item : Item) (dk : String) (rel : Bool)
    (bands : List (String × BandInfo)) (grids : List (String × GridSpec))
    (h : _get_stac_bands item dk rel = .ok (bands, grids)) :
    ∃ grids0 dspec, _bands_loop dk rel item.assets [] [] = (bands, grids0) ∧
      dictGet grids0 dk = some dspec ∧
      grids = grids0.filter (fun kv => kv.1 ≠ dk) ++ [("default", dspec)] := by
  unfold _get_stac_bands at h
  rcases hloop : _bands_loop dk rel item.assets [] [] with ⟨bands0, grids0⟩
  rw [hloop] at h
  dsimp only at h
  rcases hdg : dictGet grids0 dk with _ | dspec
  · rw [hdg] at h; simp at h
  · rw [hdg] at h
    dsimp only at h
    injection h with h2
    injection h2 with hb hg
    subst hb
    subst hg
    exact ⟨grids0, dspec, rfl, hdg, rfl⟩

theorem stac_transform_ok_iff (L : GeoLib) (u : String → String → List String → String)
    (item : Item) (rel : Bool) (out : StacODC) :
    stac_transform L u item rel = .ok out ↔
    ∃ pl pn rc bands grids epsg dt cc gsd0 i0 irest plat,
      _stac_product_lookup item = .ok (pl, pn, rc) ∧
      _get_stac_bands item "g10m" rel = .ok (bands, grids) ∧
      item.properties.proj_epsg = some epsg ∧
      item.properties.datetime = some dt ∧
      item.properties.eo_cloud_cover = some cc ∧
      item.properties.gsd = some gsd0 ∧
      item.properties.instruments = some (i0 :: irest) ∧
      item.properties.platform = some plat ∧
      out = { schema := "https://schemas.opendatacube.org/dataset",
              id := u "sentinel-2_stac_process" "1.0.0" [pl],
              crs := "epsg:" ++ toString epsg,
              grids := grids,
              product_name := pyLower pn,
              label := pl,
              properties := { datetime := pyReplace dt "000+00:00" "Z",
                              odc_processing_datetime := pyReplace dt "000+00:00" "Z",
                              eo_cloud_cover := cc, eo_gsd := gsd0,
                              eo_instrument := i0, eo_platform := plat,
                              odc_file_format := "GeoTIFF",
                              odc_region_code := if truthy_str rc then rc else none },
              measurements := bands,
              geometry := _geographic_to_projected L item.geometry
                            ("epsg:" ++ toString epsg) } := by
  constructor
  · intro h
    unfold stac_transform at h
    rcases hl : _stac_product_lookup item with e | ⟨pl, pn, rc⟩
    · rw [hl] at h; simp at h
    · rw [hl] at h; dsimp only at h
      rcases hb : _get_stac_bands item "g10m" rel with e | ⟨bands, grids⟩
      · rw [hb] at h; simp at h
      · rw [hb] at h; dsimp only at h
        rcases hepsg : item.properties.proj_epsg with _ | epsg
        · rw [hepsg] at h; simp at h
        · rw [hepsg] at h; dsimp only at h
          rcases hdt : item.properties.datetime with _ | dt
          · rw [hdt] at h; simp at h
          · rw [hdt] at h; dsimp only at h
            rcases hcc : item.properties.eo_cloud_cover with _ | cc
            · rw [hcc] at h; simp at h
            · rw [hcc] at h; dsimp only at h
              rcases hgsd : item.properties.gsd with _ | gsd0
              · rw [hgsd] at h; simp at h
              · rw [hgsd] at h; dsimp only at h
                rcases hinstr : item.properties.instruments with _ | instrs
                · rw [hinstr] at h; simp at h
                · rw [hinstr] at h; dsimp only at h
                  rcases instrs with _ | ⟨i0, irest⟩
                  · simp at h
                  · dsimp only at h
                    rcases hplat : item.properties.platform with _ | plat
                    · rw [hplat] at h; simp at h
                    · rw [hplat] at h; dsimp only at h
                      cases h
                      exact ⟨pl, pn, rc, bands, grids, epsg, dt, cc, gsd0, i0, irest, plat,
                        rfl, rfl, rfl, rfl, rfl, rfl, rfl, rfl, rfl⟩
  · rintro ⟨pl, pn, rc, bands, grids, epsg, dt, cc, gsd0, i0, irest, plat,
      hl, hb, hepsg, hdt, hcc, hgsd, hinstr, hplat, hout⟩
    subst hout
    simp [stac_transform, hl, hb, hepsg, hdt, hcc, hgsd, hinstr, hplat]

/-
Concrete collaborators and items, used by witnesses and counterexamples.
-/

/-- A concrete geometry library whose reprojection always yields a valid
geometry. -/
def L0 : GeoLib :=
  { mkGeometry := fun g _ => g, to_crs := fun g _ => g,
    is_valid := fun _ => true, json := fun g => g }

/-- A concrete geometry library whose reprojection always yields an
invalid (degenerate / self-intersecting) geometry. -/
def Linvalid : GeoLib :=
  { mkGeometry := fun g _ => g, to_crs := fun g _ => g,
    is_valid := fun _ => false, json := fun g => g }

/-- A concrete deterministic identifier generator satisfying the §6
contract. -/
def u0 : String → String → List String → String :=
  fun ns ver srcs => String.intercalate ":" (ns :: ver :: srcs)

/-- The 10m-pixel-spacing affine transform of the §8 example assets. -/
def exAffine : Affine := ⟨10, 0, 699960, 0, -10, 6100000⟩

/-- First cloud-optimized asset of the §8 example item. -/
def exAssetB02 : Asset :=
  { type := COG_MEDIA_TYPE, href := "https://example.com/x/B02.tif",
    transform := exAffine, shape := [10980, 10980] }

/-- Second cloud-optimized asset of the §8 example item. -/
def exAssetB03 : Asset :=
  { type := COG_MEDIA_TYPE, href := "https://example.com/x/B03.tif",
    transform := exAffine, shape := [10980, 10980] }

/-- Properties of the §8 example item (the mission-specific fields the
sentinel-2 profile additionally reads are populated as well). -/
def exProps : Props :=
  { platform := some "Sentinel-2A", constellation := some "sentinel-2",
    datetime := some "2020-01-01T10:00:00Z", eo_cloud_cover := some 2,
    gsd := some 10, instruments := some ["msi"], proj_epsg := some 32633,
    sentinel_product_id := some "S2A_L2A_T33UXV_PRODUCT",
    sentinel_latitude_band := some "U", sentinel_grid_square := some "XV" }

/-- The §8 example item: `id = "S2A_item_1"`, sentinel-2 constellation,
EPSG 32633, latitude band U, grid square XV, two cloud-optimized assets
with pixel spacing 10. -/
def exItem : Item :=
  { id := "S2A_item_1", properties := exProps,
    assets := [("B02", exAssetB02), ("B03", exAssetB03)], geometry := "POLYGON_WGS84" }

/-- Variant of the example item differing from `exItem` in platform,
timestamps, cloud cover, geometry and assets, but resolving to the same
product label. -/
def exItemVariant : Item :=
  { id := "S2A_item_1_bis",
    properties :=
      { platform := some "Sentinel-2B", constellation := some "sentinel-2",
        datetime := some "2021-06-30T09:30:00Z", eo_cloud_cover := some 57,
        gsd := some 10, instruments := some ["msi"], proj_epsg := some 32633,
        sentinel_product_id := some "S2A_L2A_T33UXV_PRODUCT",
        sentinel_latitude_band := some "U", sentinel_grid_square := some "XV" },
    assets := [("B02", exAssetB02)], geometry := "OTHER_POLYGON" }

/-- C1: for every pair of input items on which `stac_transform` succeeds
(with the same external identifier generator), if both items resolve to
the same product label then the output `id` fields are equal, no matter
how the items differ otherwise (different geometry library, path mode,
assets, geometry, timestamps, cloud cover, ...). -/
theorem c1_id_pure_function_of_label
    (L1 L2 : GeoLib) (u : String → String → List String → String)
    (item1 item2 : Item) (rel1 rel2 : Bool) (out1 out2 : StacODC)
    (h1 : stac_transform L1 u item1 rel1 = .ok out1)
    (h2 : stac_transform L2 u item2 rel2 = .ok out2)
    (hlabel : out1.label = out2.label) : out1.id = out2.id := by
  rw [stac_transform_ok_iff] at h1 h2
  obtain ⟨pl1, pn1, rc1, b1, g1, e1, d1, cv1, gs1, i1, ir1, p1,
    _, _, _, _, _, _, _, _, hout1⟩ := h1
  obtain ⟨pl2, pn2, rc2, b2, g2, e2, d2, cv2, gs2, i2, ir2, p2,
    _, _, _, _, _, _, _, _, hout2⟩ := h2
  subst hout1
  subst hout2
  simp only at hlabel ⊢
  rw [hlabel]

/-- Witness for C1: two concrete items differing in platform, cloud
cover, timestamp, geometry and assets but sharing a label get equal ids. -/
theorem c1_id_pure_function_of_label_witness :
    ∃ out1 out2,
      stac_transform L0 u0 exItem true = .ok out1 ∧
      stac_transform Linvalid u0 exItemVariant false = .ok out2 ∧
      out1.label = out2.label ∧ out1.id = out2.id :=
  ⟨_, _, rfl, rfl, rfl,
    c1_id_pure_function_of_label L0 Linvalid u0 exItem exItemVariant true false _ _
      rfl rfl rfl⟩

/-- C2: for every item on which `stac_transform` succeeds, the output
`grids` contains exactly one entry keyed `default` (and no other), the
configured default key `g10m` is absent, and every band carrying a `grid`
field references a key present in `grids`. -/
theorem c2_grids_shape_invariants
    (L : GeoLib) (u : String → String → List String → String)
    (item : Item) (rel : Bool) (out : StacODC)
    (h : stac_transform L u item rel = .ok out) :
    out.grids.countP (fun kv => kv.1 = "default") = 1 ∧
    dictGet out.grids "g10m" = none ∧
    ∀ nb ∈ out.measurements, ∀ g, (nb : String × BandInfo).2.grid = some g →
      (dictGet out.grids g).isSome := by
  rw [stac_transform_ok_iff] at h
  obtain ⟨pl, pn, rc, bands, grids, epsg, dt, cc, gsd0, i0, irest, plat,
    _, hb, _, _, _, _, _, _, hout⟩ := h
  subst hout
  obtain ⟨grids0, dspec, hloop, hdg, hgr⟩ := bands_ok_elim item "g10m" rel bands grids hb
  subst hgr
  simp only
  refine ⟨?_, ?_, ?_⟩
  · rw [List.countP_append]
    have h0 : (grids0.filter (fun kv => kv.1 ≠ "g10m")).countP
        (fun kv => kv.1 = "default") = 0 := by
      rw [List.countP_eq_zero]
      intro kv hkv
      have hkv2 : kv ∈ grids0 := List.mem_of_mem_filter hkv
      have hkv3 : kv ∈ (_bands_loop "g10m" rel item.assets [] []).2 := by
        rw [hloop]; exact hkv2
      rcases loop_grids_mem "g10m" rel item.assets [] [] kv hkv3 with h3 | h3
      · exact absurd h3 (List.not_mem_nil kv)
      · obtain ⟨a, ha⟩ := h3
        simp only [ha, decide_eq_true_eq]
        exact gridKeyOf_ne_default a
    rw [h0]
    simp
  · rw [dictGet_append, dictGet_filter_self]
    simp [dictGet]
  · intro nb hnb g hg
    have hloopmem : nb ∈ (_bands_loop "g10m" rel item.assets [] []).1 := by
      rw [hloop]; exact hnb
    have hinv := loop_bands_inv "g10m" rel item.assets [] []
      (fun nb2 h2 => absurd h2 (List.not_mem_nil _)) nb hloopmem g hg
    obtain ⟨hne, hsome⟩ := hinv
    have hsome2 : (dictGet grids0 g).isSome := by
      rw [hloop] at hsome
      exact hsome
    rw [dictGet_append, dictGet_filter_ne _ _ _ hne]
    rcases hx : dictGet grids0 g with _ | v
    · rw [hx] at hsome2; cases hsome2
    · simp

/-- Witness for C2, at the §8 example item. -/
theorem c2_grids_shape_invariants_witness :
    ∃ out, stac_transform L0 u0 exItem true = .ok out ∧
      (out.grids.countP (fun kv => kv.1 = "default") = 1 ∧
       dictGet out.grids "g10m" = none ∧
       ∀ nb ∈ out.measurements, ∀ g, (nb : String × BandInfo).2.grid = some g →
         (dictGet out.grids g).isSome) :=
  ⟨_, rfl, c2_grids_shape_invariants L0 u0 exItem true _ rfl⟩

/-- C3: two cloud-optimized assets of an item are consolidated into the
same grid entry (their bands reference the same key of `grids`, reading an
absent override as `default`) if and only if their transforms are
identical after formatting to the canonical grid key `g<spacing>m`. -/
theorem c3_same_grid_iff_same_formatted_key
    (item : Item) (dk : String) (rel : Bool)
    (bands : List (String × BandInfo)) (grids : List (String × GridSpec))
    (n1 n2 : String) (a1 a2 : Asset)
    (h : _get_stac_bands item dk rel = .ok (bands, grids))
    (hm1 : (n1, a1) ∈ item.assets) (hm2 : (n2, a2) ∈ item.assets)
    (ht1 : a1.type = COG_MEDIA_TYPE) (ht2 : a2.type = COG_MEDIA_TYPE) :
    ((n1, mkBandInfo dk rel a1) ∈ bands ∧ (n2, mkBandInfo dk rel a2) ∈ bands) ∧
    ((mkBandInfo dk rel a1).grid.getD "default" =
        (mkBandInfo dk rel a2).grid.getD "default" ↔
      gridKeyOf a1 = gridKeyOf a2) := by
  obtain ⟨grids0, dspec, hloop, hdg, hgr⟩ := bands_ok_elim item dk rel bands grids h
  constructor
  · constructor
    · have := loop_bands_mem dk rel item.assets [] [] n1 a1 hm1 ht1
      rw [hloop] at this
      exact this
    · have := loop_bands_mem dk rel item.assets [] [] n2 a2 hm2 ht2
      rw [hloop] at this
      exact this
  · unfold mkBandInfo
    dsimp only
    by_cases k1 : gridKeyOf a1 ≠ dk
    · by_cases k2 : gridKeyOf a2 ≠ dk
      · rw [if_pos k1, if_pos k2]
        simp
      · rw [if_pos k1, if_neg k2]
        push_neg at k2
        simp only [Option.getD_some, Option.getD_none]
        constructor
        · intro hdef
          exact absurd hdef (gridKeyOf_ne_default a1)
        · intro heq
          rw [k2] at heq
          exact absurd heq k1
    · by_cases k2 : gridKeyOf a2 ≠ dk
      · rw [if_neg k1, if_pos k2]
        push_neg at k1
        simp only [Option.getD_some, Option.getD_none]
        constructor
        · intro hdef
          exact absurd hdef.symm (gridKeyOf_ne_default a2)
        · intro heq
          rw [k1] at heq
          exact absurd heq.symm k2
      · rw [if_neg k1, if_neg k2]
        push_neg at k1 k2
        simp [k1, k2]

/-- A 20m-pixel-spacing cloud-optimized asset, used to exercise a second
grid entry. -/
def exAssetB08 : Asset :=
  { type := COG_MEDIA_TYPE, href := "https://example.com/x/B08.tif",
    transform := ⟨20, 0, 699960, 0, -20, 6100000⟩, shape := [5490, 5490] }

/-- Example item with two cloud-optimized assets on different grids. -/
def exItemTwoGrids : Item :=
  { id := "S2A_item_2", properties := exProps,
    assets := [("B02", exAssetB02), ("B08", exAssetB08)], geometry := "POLYGON_WGS84" }

/-- Witness for C3, at a concrete item holding a 10m and a 20m asset. -/
theorem c3_same_grid_iff_same_formatted_key_witness :
    ∃ bands grids, _get_stac_bands exItemTwoGrids "g10m" true = .ok (bands, grids) ∧
      ((("B02", mkBandInfo "g10m" true exAssetB02) ∈ bands ∧
        ("B08", mkBandInfo "g10m" true exAssetB08) ∈ bands) ∧
       ((mkBandInfo "g10m" true exAssetB02).grid.getD "default" =
           (mkBandInfo "g10m" true exAssetB08).grid.getD "default" ↔
         gridKeyOf exAssetB02 = gridKeyOf exAssetB08)) :=
  ⟨_, _, rfl,
    c3_same_grid_iff_same_formatted_key exItemTwoGrids "g10m" true _ _ "B02" "B08"
      exAssetB02 exAssetB08 rfl (by simp [exItemTwoGrids]) (by simp [exItemTwoGrids])
      rfl rfl⟩

/-- C4: whenever `stac_transform` succeeds under some geometry library, it
also succeeds under any other geometry library (in particular one whose
reprojection result is topologically invalid — invalidity is a silent
degradation, not an error), and the output carries a `geometry` field if
and only if the reprojected footprint is valid. -/
theorem c4_geometry_validity_gate
    (L Lp : GeoLib) (u : String → String → List String → String)
    (item : Item) (rel : Bool) (out : StacODC) (epsg : Int)
    (h : stac_transform L u item rel = .ok out)
    (he : item.properties.proj_epsg = some epsg) :
    ∃ outp, stac_transform Lp u item rel = .ok outp ∧
      outp.geometry = _geographic_to_projected Lp item.geometry
        ("epsg:" ++ toString epsg) ∧
      outp.geometry.isSome =
        Lp.is_valid (Lp.to_crs (Lp.mkGeometry item.geometry "EPSG:4326")
          ("epsg:" ++ toString epsg)) := by
  rw [stac_transform_ok_iff] at h
  obtain ⟨pl, pn, rc, bands, grids, epsg0, dt, cc, gsd0, i0, irest, plat,
    hl, hb, hepsg, hdt, hcc, hgsd, hinstr, hplat, hout⟩ := h
  rw [hepsg] at he
  injection he with he2
  subst he2
  refine ⟨_, (stac_transform_ok_iff Lp u item rel _).mpr
      ⟨pl, pn, rc, bands, grids, epsg0, dt, cc, gsd0, i0, irest, plat,
       hl, hb, hepsg, hdt, hcc, hgsd, hinstr, hplat, rfl⟩, rfl, ?_⟩
  simp only
  unfold _geographic_to_projected
  dsimp only
  cases hv : Lp.is_valid (Lp.to_crs (Lp.mkGeometry item.geometry "EPSG:4326")
      ("epsg:" ++ toString epsg0)) <;> simp [hv]

/-- Witness for C4: under the always-invalid geometry library the example
item still transforms, with no geometry in the output. -/
theorem c4_geometry_validity_gate_witness :
    exItem.properties.proj_epsg = some 32633 ∧
    ∃ outp, stac_transform Linvalid u0 exItem true = .ok outp ∧
      outp.geometry = _geographic_to_projected Linvalid exItem.geometry
        ("epsg:" ++ toString (32633 : Int)) ∧
      outp.geometry.isSome =
        Linvalid.is_valid (Linvalid.to_crs
          (Linvalid.mkGeometry exItem.geometry "EPSG:4326")
          ("epsg:" ++ toString (32633 : Int))) :=
  ⟨rfl, c4_geometry_validity_gate L0 Linvalid u0 exItem true _ 32633 rfl rfl⟩

/-- C5: on the §8 example item (sentinel-2 constellation, EPSG 32633,
latitude band U, grid square XV, two 10m cloud-optimized assets) the
transform yields product name `s2_l2a`, region code `33UXV`, a `grids`
mapping whose single key is `default`, and no band carries a grid
override. -/
theorem c5_example_scenario (L : GeoLib) (u : String → String → List String → String) :
    (stac_transform L u exItem true).map
      (fun out => (out.product_name, out.properties.odc_region_code,
                   out.grids.map Prod.fst,
                   out.measurements.map (fun nb => nb.2.grid))) =
    .ok ("s2_l2a", some "33UXV", ["default"], [none, none]) := by
  rfl

/-- Modelled from the spec: the claimed datetime normalization — rewrite
the malformed sub-second-plus-offset suffix "000+00:00" to "Z", and leave
the source string unchanged when that suffix is absent. Stated for
comparison with the source behaviour (`str.replace`, which rewrites every
occurrence, suffix or not). -/
def claimedSuffixNorm (s : String) : String :=
  if ("000+00:00").data.isSuffixOf s.data then
    ⟨s.data.take (s.data.length - 9) ++ ['Z']⟩
  else s

/-- Item whose datetime string contains "000+00:00" as an interior
substring but not as a suffix. -/
def c6Item : Item :=
  { id := "item_c6",
    properties :=
      { platform := some "Some-Platform", constellation := some "unknown-sat",
        datetime := some "000+00:00x", eo_cloud_cover := some 0,
        gsd := some 10, instruments := some ["ins"], proj_epsg := some 32633,
        sentinel_product_id := none, sentinel_latitude_band := none,
        sentinel_grid_square := none },
    assets := [("band", exAssetB02)], geometry := "G" }

/-- Counterexample to C6: on a datetime where "000+00:00" occurs but not
as a suffix, the code rewrites it anyway ("000+00:00x" becomes "Zx"),
while the claim as stated requires the string to pass through
unchanged. -/
theorem c6_cex_interior_occurrence_rewritten :
    (stac_transform L0 u0 c6Item true).map (fun d => d.properties.datetime) =
        .ok "Zx" ∧
    claimedSuffixNorm "000+00:00x" = "000+00:00x" ∧
    ("Zx" : String) ≠ "000+00:00x" :=
  ⟨rfl, rfl, by decide⟩

/-- C6 (amended): both output datetime fields equal the source datetime
with every occurrence of the substring "000+00:00" replaced by "Z"; in
particular they equal the source unchanged when the substring occurs
nowhere in it (not merely when it is absent as a suffix). -/
theorem c6_amended_datetime_replace_all
    (L : GeoLib) (u : String → String → List String → String)
    (item : Item) (rel : Bool) (out : StacODC) (dt0 : String)
    (h : stac_transform L u item rel = .ok out)
    (hdt : item.properties.datetime = some dt0) :
    out.properties.datetime = pyReplace dt0 "000+00:00" "Z" ∧
    out.properties.odc_processing_datetime = pyReplace dt0 "000+00:00" "Z" ∧
    (containsSub ("000+00:00").data dt0.data = false →
      out.properties.datetime = dt0) := by
  rw [stac_transform_ok_iff] at h
  obtain ⟨pl, pn, rc, bands, grids, epsg, dt, cc, gsd0, i0, irest, plat,
    hl, hb, hepsg, hdt2, hcc, hgsd, hinstr, hplat, hout⟩ := h
  rw [hdt2] at hdt
  injection hdt with hdt3
  subst hdt3
  subst hout
  refine ⟨rfl, rfl, ?_⟩
  intro hnc
  simp only
  unfold pyReplace
  rw [replaceList_of_not_contains _ _ _ hnc]

/-- Witness for C6 (amended), at the example item whose datetime contains
no occurrence of the pattern. -/
theorem c6_amended_datetime_replace_all_witness :
    ∃ out, stac_transform L0 u0 exItem true = .ok out ∧
      (out.properties.datetime = pyReplace "2020-01-01T10:00:00Z" "000+00:00" "Z" ∧
       out.properties.odc_processing_datetime =
         pyReplace "2020-01-01T10:00:00Z" "000+00:00" "Z" ∧
       (containsSub ("000+00:00").data ("2020-01-01T10:00:00Z").data = false →
         out.properties.datetime = "2020-01-01T10:00:00Z")) :=
  ⟨_, rfl, c6_amended_datetime_replace_all L0 u0 exItem true _ "2020-01-01T10:00:00Z"
    rfl rfl⟩

/-- C7: an item whose constellation is not in the known-constellation
table (and on which the transform succeeds) keeps `label = item.id`,
gets `product.name` equal to the lower-cased platform, and carries no
region code in the output properties. -/
theorem c7_unknown_constellation_fallback
    (L : GeoLib) (u : String → String → List String → String)
    (item : Item) (rel : Bool) (out : StacODC) (c plat : String)
    (h : stac_transform L u item rel = .ok out)
    (hc : item.properties.constellation = some c)
    (hk : c ∉ KNOWN_CONSTELLATIONS)
    (hp : item.properties.platform = some plat) :
    out.label = item.id ∧ out.product_name = pyLower plat ∧
    out.properties.odc_region_code = none := by
  rw [stac_transform_ok_iff] at h
  obtain ⟨pl, pn, rc, bands, grids, epsg, dt, cc, gsd0, i0, irest, plat2,
    hl, hb, hepsg, hdt, hcc, hgsd, hinstr, hplat, hout⟩ := h
  subst hout
  unfold _stac_product_lookup at hl
  dsimp only at hl
  rw [hp] at hl
  dsimp only at hl
  rw [hc] at hl
  dsimp only at hl
  rw [if_neg hk] at hl
  injection hl with hl2
  injection hl2 with e1 hl3
  injection hl3 with e2 e3
  subst e1
  subst e2
  subst e3
  exact ⟨rfl, rfl, rfl⟩

/-- Witness for C7, at a concrete unknown-constellation item. -/
theorem c7_unknown_constellation_fallback_witness :
    ∃ out, stac_transform L0 u0 c6Item true = .ok out ∧
      (out.label = c6Item.id ∧ out.product_name = pyLower "Some-Platform" ∧
       out.properties.odc_region_code = none) :=
  ⟨_, rfl, c7_unknown_constellation_fallback L0 u0 c6Item true _ "unknown-sat"
    "Some-Platform" rfl rfl (by decide) rfl⟩

/-- One of the six always-required properties of C8 is absent. -/
def requiredPropMissing (p : Props) : Prop :=
  p.datetime = none ∨ p.eo_cloud_cover = none ∨ p.gsd = none ∨
  p.instruments = none ∨ p.platform = none ∨ p.proj_epsg = none

/-- Item with the required `datetime` property absent and no assets, so
the asset/grid consolidation step fails before the datetime is ever
read. -/
def c8Item : Item :=
  { id := "item_c8",
    properties :=
      { platform := some "P", constellation := some "unknown-sat",
        datetime := none, eo_cloud_cover := some 1, gsd := some 10,
        instruments := some ["i"], proj_epsg := some 32633,
        sentinel_product_id := none, sentinel_latitude_band := none,
        sentinel_grid_square := none },
    assets := [], geometry := "G" }

/-- Counterexample to C8: an item with the required `datetime` absent can
fail with `UnknownDefaultGridError` instead of `MissingFieldError`,
because the asset/grid step on line 100 of the source runs before the
datetime is read on line 118. -/
theorem c8_cex_grid_error_preempts_missing_field :
    c8Item.properties.datetime = none ∧
    stac_transform L0 u0 c8Item true = .error (.unknownDefaultGrid "g10m") ∧
    TErr.isMissingField (.unknownDefaultGrid "g10m") = false :=
  ⟨rfl, rfl, rfl⟩

/-- A successful product lookup implies the platform property is present
(it is read unconditionally on line 17 of the source, before anything
else). -/
theorem lookup_ok_platform (item : Item) (tr : String × String × Option String)
    (hl : _stac_product_lookup item = .ok tr) :
    ∃ p, item.properties.platform = some p := by
  unfold _stac_product_lookup at hl
  dsimp only at hl
  rcases hp : item.properties.platform with _ | p
  · rw [hp] at hl; simp at hl
  · exact ⟨p, rfl⟩

/-- Intermediate step for the amended C8: once the product lookup and the
asset/grid step have succeeded, an item missing a required property fails
with a `MissingFieldError`. (The `instruments[0]` index error cannot
intervene: platform is present by lookup success, and the other five
required fields are read before the indexing, so a missing required field
always surfaces first.) -/
theorem stac_missing_field_of_lookup_ok
    (L : GeoLib) (u : String → String → List String → String)
    (item : Item) (rel : Bool) (tr : String × String × Option String)
    (bands : List (String × BandInfo)) (grids : List (String × GridSpec))
    (hl : _stac_product_lookup item = .ok tr)
    (hb : _get_stac_bands item "g10m" rel = .ok (bands, grids))
    (hmiss : requiredPropMissing item.properties) :
    ∃ k, stac_transform L u item rel = .error (.missingField k) := by
  obtain ⟨pl, pn, rc⟩ := tr
  obtain ⟨plat, hplat⟩ := lookup_ok_platform item (pl, pn, rc) hl
  rcases hepsg : item.properties.proj_epsg with _ | epsg
  · exact ⟨"proj:epsg", by simp [stac_transform, hl, hb, hepsg]⟩
  · rcases hdt : item.properties.datetime with _ | dt
    · exact ⟨"datetime", by simp [stac_transform, hl, hb, hepsg, hdt]⟩
    · rcases hcc : item.properties.eo_cloud_cover with _ | cc
      · exact ⟨"eo:cloud_cover", by simp [stac_transform, hl, hb, hepsg, hdt, hcc]⟩
      · rcases hgsd : item.properties.gsd with _ | gsd0
        · exact ⟨"gsd", by simp [stac_transform, hl, hb, hepsg, hdt, hcc, hgsd]⟩
        · rcases hinstr : item.properties.instruments with _ | instrs
          · exact ⟨"instruments", by simp [stac_transform, hl, hb, hepsg, hdt, hcc, hgsd, hinstr]⟩
          · exfalso
            rcases hmiss with hm | hm | hm | hm | hm | hm
            · rw [hm] at hdt; cases hdt
            · rw [hm] at hcc; cases hcc
            · rw [hm] at hgsd; cases hgsd
            · rw [hm] at hinstr; cases hinstr
            · rw [hm] at hplat; cases hplat
            · rw [hm] at hepsg; cases hepsg

/-- C8 (amended): an item missing any of the six always-required
properties never transforms successfully; whenever the asset/grid step
succeeds, the failure is a `MissingFieldError`. (A missing default grid
yields `UnknownDefaultGridError` first, as the counterexample shows.) -/
theorem c8_amended_missing_required_property_fails
    (L : GeoLib) (u : String → String → List String → String)
    (item : Item) (rel : Bool)
    (hmiss : requiredPropMissing item.properties) :
    (∀ out, stac_transform L u item rel ≠ .ok out) ∧
    ((∃ bg, _get_stac_bands item "g10m" rel = .ok bg) →
      ∃ k, stac_transform L u item rel = .error (.missingField k)) := by
  constructor
  · intro out h
    rw [stac_transform_ok_iff] at h
    obtain ⟨pl, pn, rc, bands, grids, epsg, dt, cc, gsd0, i0, irest, plat,
      hl, hb, hepsg, hdt, hcc, hgsd, hinstr, hplat, hout⟩ := h
    rcases hmiss with hm | hm | hm | hm | hm | hm
    · rw [hm] at hdt; cases hdt
    · rw [hm] at hcc; cases hcc
    · rw [hm] at hgsd; cases hgsd
    · rw [hm] at hinstr; cases hinstr
    · rw [hm] at hplat; cases hplat
    · rw [hm] at hepsg; cases hepsg
  · rintro ⟨⟨bands, grids⟩, hb⟩
    rcases hplat : item.properties.platform with _ | plat
    · exact ⟨"platform", by simp [stac_transform, _stac_product_lookup, hplat]⟩
    · rcases hcon : item.properties.constellation with _ | con
      · exact ⟨"constellation", by simp [stac_transform, _stac_product_lookup, hplat, hcon]⟩
      · by_cases hs2 : con = "sentinel-2"
        · subst hs2
          rcases hpid : item.properties.sentinel_product_id with _ | pid
          · exact ⟨"sentinel:product_id", by
              simp [stac_transform, _stac_product_lookup, hplat, hcon, hpid,
                KNOWN_CONSTELLATIONS]⟩
          · rcases hepsg2 : item.properties.proj_epsg with _ | epsg
            · exact ⟨"proj:epsg", by
                simp [stac_transform, _stac_product_lookup, hplat, hcon, hpid, hepsg2,
                  KNOWN_CONSTELLATIONS]⟩
            · rcases hlat : item.properties.sentinel_latitude_band with _ | lat
              · exact ⟨"sentinel:latitude_band", by
                  simp [stac_transform, _stac_product_lookup, hplat, hcon, hpid, hepsg2,
                    hlat, KNOWN_CONSTELLATIONS]⟩
              · rcases hsq : item.properties.sentinel_grid_square with _ | sq
                · exact ⟨"sentinel:grid_square", by
                    simp [stac_transform, _stac_product_lookup, hplat, hcon, hpid, hepsg2,
                      hlat, hsq, KNOWN_CONSTELLATIONS]⟩
                · exact stac_missing_field_of_lookup_ok L u item rel
                    (pid, "s2_l2a", some (pyLastTwo (toString epsg) ++ lat ++ sq))
                    bands grids
                    (by simp [_stac_product_lookup, hplat, hcon, hpid, hepsg2, hlat, hsq,
                      KNOWN_CONSTELLATIONS]) hb hmiss
        · exact stac_missing_field_of_lookup_ok L u item rel (item.id, plat, none)
            bands grids
            (by simp [_stac_product_lookup, hplat, hcon, hs2, KNOWN_CONSTELLATIONS])
            hb hmiss

/-- Item missing `eo:cloud_cover` but otherwise fully well-formed. -/
def c8WellFormedItem : Item :=
  { id := "item_c8w",
    properties :=
      { platform := some "P", constellation := some "unknown-sat",
        datetime := some "2020-01-01T00:00:00Z", eo_cloud_cover := none,
        gsd := some 10, instruments := some ["i"], proj_epsg := some 32633,
        sentinel_product_id := none, sentinel_latitude_band := none,
        sentinel_grid_square := none },
    assets := [("B02", exAssetB02)], geometry := "G" }

/-- Witness for C8 (amended): a well-formed item missing `eo:cloud_cover`
fails, with a `MissingFieldError`. -/
theorem c8_amended_missing_required_property_fails_witness :
    requiredPropMissing c8WellFormedItem.properties ∧
    (∀ out, stac_transform L0 u0 c8WellFormedItem true ≠ .ok out) ∧
    ((∃ bg, _get_stac_bands c8WellFormedItem "g10m" true = .ok bg) →
      ∃ k, stac_transform L0 u0 c8WellFormedItem true = .error (.missingField k)) :=
  ⟨Or.inr (Or.inl rfl),
   c8_amended_missing_required_property_fails L0 u0 c8WellFormedItem true
     (Or.inr (Or.inl rfl))⟩

/-- Item with a single cloud-optimized asset whose pixel spacing is 20,
so no asset maps to the configured default key `g10m`. -/
def exItemNoDefault : Item :=
  { id := "S2A_item_3", properties := exProps,
    assets := [("B08", exAssetB08)], geometry := "POLYGON_WGS84" }

/-- C9: when no cloud-optimized asset maps to the configured default grid
key `g10m` (including when there are no qualifying assets at all), the
asset/grid consolidation step fails with `UnknownDefaultGridError`, and
`stac_transform` propagates that error to the caller whenever the
preceding product-lookup stage succeeded. -/
theorem c9_unknown_default_grid_error
    (item : Item) (rel : Bool)
    (h : ∀ na ∈ item.assets, (na : String × Asset).2.type = COG_MEDIA_TYPE →
          gridKeyOf na.2 ≠ "g10m") :
    _get_stac_bands item "g10m" rel = .error (.unknownDefaultGrid "g10m") ∧
    ∀ (L : GeoLib) (u : String → String → List String → String) tr,
      _stac_product_lookup item = .ok tr →
      stac_transform L u item rel = .error (.unknownDefaultGrid "g10m") := by
  have hnone : dictGet (_bands_loop "g10m" rel item.assets [] []).2 "g10m" = none :=
    loop_no_dk "g10m" rel item.assets [] [] h rfl
  have hbands : _get_stac_bands item "g10m" rel = .error (.unknownDefaultGrid "g10m") := by
    unfold _get_stac_bands
    rcases hloop : _bands_loop "g10m" rel item.assets [] [] with ⟨bands0, grids0⟩
    rw [hloop] at hnone
    dsimp only at hnone ⊢
    rw [hnone]
  refine ⟨hbands, ?_⟩
  intro L u tr hl
  obtain ⟨pl, pn, rc⟩ := tr
  simp [stac_transform, hl, hbands]

/-- Witness for C9: an item whose only cloud-optimized asset sits on the
20m grid fails the consolidation step and the whole transform with
`UnknownDefaultGridError`. -/
theorem c9_unknown_default_grid_error_witness :
    _get_stac_bands exItemNoDefault "g10m" true =
        .error (.unknownDefaultGrid "g10m") ∧
    stac_transform L0 u0 exItemNoDefault true =
        .error (.unknownDefaultGrid "g10m") := by
  have h := c9_unknown_default_grid_error exItemNoDefault true (by decide)
  exact ⟨h.1, h.2 L0 u0 _ rfl⟩

/-- C10: an item whose `properties` lack the `constellation` key entirely
never transforms successfully — the field is read unconditionally on
line 21 of the source, before any fallback applies; with the platform
present the error is precisely the missing-`constellation` one. -/
theorem c10_missing_constellation_fails
    (L : GeoLib) (u : String → String → List String → String)
    (item : Item) (rel : Bool)
    (hc : item.properties.constellation = none) :
    (∀ out, stac_transform L u item rel ≠ .ok out) ∧
    (∀ p, item.properties.platform = some p →
      stac_transform L u item rel = .error (.missingField "constellation")) := by
  constructor
  · intro out h
    rw [stac_transform_ok_iff] at h
    obtain ⟨pl, pn, rc, bands, grids, epsg, dt, cc, gsd0, i0, irest, plat,
      hl, hb, hepsg, hdt, hcc, hgsd, hinstr, hplat, hout⟩ := h
    unfold _stac_product_lookup at hl
    dsimp only at hl
    rw [hplat] at hl
    dsimp only at hl
    rw [hc] at hl
    simp at hl
  · intro p hp
    simp [stac_transform, _stac_product_lookup, hp, hc]

/-- Item whose properties lack `constellation`. -/
def c10Item : Item :=
  { id := "item_c10",
    properties :=
      { platform := some "P", constellation := none,
        datetime := some "2020-01-01T00:00:00Z", eo_cloud_cover := some 1,
        gsd := some 10, instruments := some ["i"], proj_epsg := some 32633,
        sentinel_product_id := none, sentinel_latitude_band := none,
        sentinel_grid_square := none },
    assets := [("B02", exAssetB02)], geometry := "G" }

/-- Witness for C10 at a concrete constellation-less item. -/
theorem c10_missing_constellation_fails_witness :
    c10Item.properties.constellation = none ∧
    (∀ out, stac_transform L0 u0 c10Item true ≠ .ok out) ∧
    stac_transform L0 u0 c10Item true = .error (.missingField "constellation") := by
  have h := c10_missing_constellation_fails L0 u0 c10Item true rfl
  exact ⟨rfl, h.1, h.2 "P" rfl⟩
